import Mathlib

/-!
Verification of the feature-importance engine in
`finance_ml/features/importance.py`.

The source file defines four operations:

* `feat_imp_MDI`   - structural (mean-decrease-impurity) importance read from a
  fitted ensemble's per-tree `feature_importances_` vectors;
* `feat_imp_MDA`   - permutation (mean-decrease-accuracy) importance via
  leakage-aware cross-validation;
* `feat_imp_SFI`   - single-feature importance: a full cross-validation run per
  feature column in isolation;
* `feat_importance` - the orchestrator that fits the classifier prototype on
  the full dataset and dispatches to one of the three estimators.

External collaborators (the sklearn classifier, the scoring functions
`log_loss` / `accuracy_score`, the `PurgedKFold` splitter, `np.random.shuffle`)
are modelled as oracle functions collected in environment structures `MLEnv`
and `CVEnv`.  Repository code that is imported by the source file but is not
part of it (`cv_score`, `mp_pandas_obj`) is modelled from the specification;
each such definition carries a doc comment saying so.

Numeric cells are modelled as rationals; a pandas `NaN` cell (produced by
`replace(0, np.nan)` in MDI) is modelled as `none : Option ℚ`.  `np.sqrt` is an
abstract parameter `sq : ℚ → ℚ` threaded through every definition that scales
a standard deviation; all theorems hold for every choice of `sq`.
-/

namespace FinanceML

/-- Errors the engine can signal: the explicit scoring-name check
(`raise Exception('wrong scoring method')`, the spec's `InvalidConfiguration`),
a Python `TypeError` from a keyword call that does not bind, and a Python
`UnboundLocalError` from reading a never-assigned local. -/
inductive PyError where
  | invalidConfiguration
  | typeError
  | unboundLocalError
deriving DecidableEq

/-- A label series (`y`), aligned positionally to the feature matrix. -/
abbrev LSer := List ℚ

/-- A sample-weight series. -/
abbrev WSer := List ℚ

/-- An event-span series (`t1`): start and end timestamp per sample. -/
abbrev TSer := List (ℚ × ℚ)

/-- A class-probability table as returned by `predict_proba`. -/
abbrev Probs := List (List ℚ)

/-- A pandas DataFrame of features: positional rows, named columns. -/
structure DF where
  nRows : ℕ
  cols : List String
  val : ℕ → String → ℚ

/-- Positional row selection `X.iloc[pos]`; in pandas, fancy indexing with an
index list returns a new (copied) frame. -/
def DF.iloc (X : DF) (pos : List ℕ) : DF :=
  ⟨pos.length, X.cols, fun i c => X.val (pos.getD i 0) c⟩

/-- Deep copy `X.copy(deep=True)`: the identity on the pure value; mutation of
the copy is modelled below by building a new frame, so the original is
untouched. -/
def DF.copy (X : DF) : DF := X

/-- The values of one column, `X[c].values`. -/
def DF.colVals (X : DF) (c : String) : List ℚ :=
  (List.range X.nRows).map (fun i => X.val i c)

/-- Overwrite one column of a frame with a list of values: the effect of the
in-place `np.random.shuffle(X_test_[col].values)` on the copy `X_test_`. -/
def DF.setCol (X : DF) (c : String) (vals : List ℚ) : DF :=
  ⟨X.nRows, X.cols, fun i c2 => if c2 = c then vals.getD i 0 else X.val i c2⟩

/-- The single-column sub-frame `X[[c]]`. -/
def DF.singleCol (X : DF) (c : String) : DF := ⟨X.nRows, [c], X.val⟩

/-- Positional selection `s.iloc[pos]` on a series. -/
def ilocL (y : List ℚ) (pos : List ℕ) : List ℚ := pos.map (fun p => y.getD p 0)

/-- Positional selection on an optional weight series. -/
def wIloc (w : Option WSer) (pos : List ℕ) : Option WSer :=
  w.map (fun sw => ilocL sw pos)

/-- The mean of a list of scores (pandas `mean`). -/
def listMean (xs : List ℚ) : ℚ := xs.sum / (xs.length : ℚ)

/-- The sample variance with `ddof=1`, the convention of pandas `std`. -/
def sampleVar (xs : List ℚ) : ℚ :=
  ((xs.map (fun x => (x - listMean xs) ^ 2)).sum) / ((xs.length : ℚ) - 1)

/-- The sample standard deviation, with `np.sqrt` abstracted as `sq`. -/
def sampleStd (sq : ℚ → ℚ) (xs : List ℚ) : ℚ := sq (sampleVar xs)

/-- External classifier and scoring capabilities (sklearn): `M` is the type of
fitted models. `fit` covers `clf.fit`, the remaining fields cover
`predict_proba` / `predict` / `classes_`, the two scorers, and the fitted
ensemble's `estimators_[i].feature_importances_` table and `oob_score_`
(`none` when the attribute is absent). -/
structure MLEnv (M : Type) where
  fit : DF → LSer → Option WSer → M
  predict_proba : M → DF → Probs
  predict : M → DF → LSer
  classes : M → LSer
  log_loss : LSer → Probs → Option WSer → LSer → ℚ
  accuracy_score : LSer → LSer → Option WSer → ℚ
  estimators : M → List (List ℚ)
  oob_score : M → Option ℚ

/-- External cross-validation collaborators: `purged_k_fold n t1 e X` is the
fold list produced by `PurgedKFold(n_splits, t1, pct_embargo).split(X)`, and
`shuffle idx c vals` is the outcome of `np.random.shuffle` on the values of
column `c` in fold `idx` (independent per fold and per column). -/
structure CVEnv where
  purged_k_fold : ℕ → TSer → ℚ → DF → List (List ℕ × List ℕ)
  shuffle : ℕ → String → List ℚ → List ℚ

/-- A record of one `clf.fit(X_train, y_train, sample_weight=w_train)` call. -/
abbrev FitCall := DF × LSer × Option WSer

/-- The scoring branch the source duplicates at lines 81-89 and 95-103:
negated log-loss on probabilities for `'neg_log_loss'`, accuracy on hard
predictions otherwise. -/
def foldScore {M : Type} (env : MLEnv M) (m : M) (scoring : String)
    (Xt : DF) (yt : LSer) (wt : Option WSer) : ℚ :=
  if scoring = "neg_log_loss" then
    -(env.log_loss yt (env.predict_proba m Xt) wt (env.classes m))
  else
    env.accuracy_score yt (env.predict m Xt) wt

/-! ## feat_imp_MDI (source lines 11-35) -/

/-- The `replace(0, np.nan)` step applied to one cell: zero means "feature not
used for splitting in this tree" and becomes missing. -/
def nanCell (x : ℚ) : Option ℚ := if x = 0 then none else some x

/-- The present (non-NaN) values of a column. -/
def nanVals (l : List (Option ℚ)) : List ℚ := l.filterMap id

/-- NaN-skipping column mean (pandas `mean`): `NaN` when no value is present. -/
def nanMean (l : List (Option ℚ)) : Option ℚ :=
  if nanVals l = [] then none else some (listMean (nanVals l))

/-- NaN-skipping column sample std (pandas `std`, `ddof=1`): `NaN` when fewer
than two values are present. -/
def nanStd (sq : ℚ → ℚ) (l : List (Option ℚ)) : Option ℚ :=
  if 2 ≤ (nanVals l).length then some (sampleStd sq (nanVals l)) else none

/-- Column `j` of the stacked importance table: tree `i` contributes
`forest.estimators_[i].feature_importances_[j]`. -/
def mdiColumn (estimators : List (List ℚ)) (j : ℕ) : List ℚ :=
  estimators.map (fun v => v.getD j 0)

/-- The pre-normalization MDI table (source lines 25-33): per feature, the
NaN-skipping mean and `std * np.sqrt(imp_df.shape[0])` of the per-tree
importances after `replace(0, np.nan)`. -/
def feat_imp_MDI_raw (sq : ℚ → ℚ) (estimators : List (List ℚ))
    (feat_names : List String) : List (String × Option ℚ × Option ℚ) :=
  (List.range feat_names.length).map (fun j =>
    let colv := (mdiColumn estimators j).map nanCell
    (feat_names.getD j "",
     nanMean colv,
     (nanStd sq colv).map (fun x => x * sq (estimators.length : ℚ))))

/-- Mean Decrease Impurity (source lines 11-35): the table above followed by
`imp /= imp['mean'].sum()`, which divides both columns by the NaN-skipping sum
of the means. -/
def feat_imp_MDI (sq : ℚ → ℚ) (estimators : List (List ℚ))
    (feat_names : List String) : List (String × Option ℚ × Option ℚ) :=
  let raw := feat_imp_MDI_raw sq estimators feat_names
  let s := (raw.map (fun r => r.2.1.getD 0)).sum
  raw.map (fun r => (r.1, r.2.1.map (fun x => x / s), r.2.2.map (fun x => x / s)))

/-! ## feat_imp_MDA (source lines 38-114) -/

/-- The per-fold fit `clf.fit(X_train, y_train, sample_weight=w_train)` where
the train partition is selected positionally (source lines 68-80). -/
def mdaFoldFit {M : Type} (env : MLEnv M) (X : DF) (y : LSer) (w : Option WSer)
    (train : List ℕ) : M :=
  env.fit (X.iloc train) (ilocL y train) (wIloc w train)

/-- Fit on the train partition of a fold and score on its untouched test
partition: the baseline score of a fold in MDA (source lines 80-89) and the
per-fold body of the cross-validation score. -/
def foldFitScore {M : Type} (env : MLEnv M) (X : DF) (y : LSer) (w : Option WSer)
    (scoring : String) (fold : List ℕ × List ℕ) : ℚ :=
  foldScore env (mdaFoldFit env X y w fold.1) scoring
    (X.iloc fold.2) (ilocL y fold.2) (wIloc w fold.2)

/-- The per-feature permuted test partition (source lines 92-94):
`X_test_ = X_test.copy(deep=True)` followed by the in-place
`np.random.shuffle(X_test_[col].values)`, modelled as rebuilding column `c` of
the copy from the shuffle outcome. -/
def mdaPermMatrix (cv : CVEnv) (X_test : DF) (idx : ℕ) (c : String) : DF :=
  let X_test_ := X_test.copy
  X_test_.setCol c (cv.shuffle idx c (X_test_.colVals c))

/-- The permuted score of fold `idx` for feature `c` (source lines 95-103):
the same fitted classifier scored on the permuted test copy. -/
def mdaPermScore {M : Type} (env : MLEnv M) (cv : CVEnv) (X : DF) (y : LSer)
    (w : Option WSer) (scoring : String) (idx : ℕ) (fold : List ℕ × List ℕ)
    (c : String) : ℚ :=
  foldScore env (mdaFoldFit env X y w fold.1) scoring
    (mdaPermMatrix cv (X.iloc fold.2) idx c) (ilocL y fold.2) (wIloc w fold.2)

/-- The "maximum possible improvement" denominator (source lines 107-110):
`-scores_perm` under `'neg_log_loss'`, `1 - scores_perm` otherwise.  No guard
against a zero value. -/
def mdaMaxImprv (scoring : String) (sp : ℚ) : ℚ :=
  if scoring = "neg_log_loss" then -sp else 1 - sp

/-- One cell of `imp = imprv / max_imprv` (source lines 104-111), with
`imprv = (-scores_perm).add(scores, axis=0)`. -/
def mdaRatio (scoring : String) (s sp : ℚ) : ℚ :=
  (-sp + s) / mdaMaxImprv scoring sp

/-- Mean Decrease Accuracy (source lines 38-114).  Returns the importance
report (per feature: mean and `std * np.sqrt(imp.shape[0])` of the normalized
improvement over folds) together with `scores.mean()`, plus the list of fit
calls performed, used to express the fail-fast property. -/
def feat_imp_MDA {M : Type} (sq : ℚ → ℚ) (env : MLEnv M) (cv : CVEnv) (X : DF)
    (y : LSer) (n_splits : ℕ) (t1 : TSer) (sample_weight : Option WSer)
    (pct_embargo : ℚ) (scoring : String) :
    Except PyError (List (String × ℚ × ℚ) × ℚ) × List FitCall :=
  if !(["neg_log_loss", "accuracy"].contains scoring) then
    (.error .invalidConfiguration, [])
  else
    let folds := cv.purged_k_fold n_splits t1 pct_embargo X
    let fold_data := (List.range n_splits).zip folds
    let scores := fold_data.map (fun p =>
      foldFitScore env X y sample_weight scoring p.2)
    let ratioCol := fun (c : String) => fold_data.map (fun p =>
      mdaRatio scoring (foldFitScore env X y sample_weight scoring p.2)
        (mdaPermScore env cv X y sample_weight scoring p.1 p.2 c))
    let imp := X.cols.map (fun c =>
      (c, listMean (ratioCol c), sampleStd sq (ratioCol c) * sq (n_splits : ℚ)))
    (.ok (imp, listMean scores),
     fold_data.map (fun p => (X.iloc p.2.1, ilocL y p.2.1, wIloc sample_weight p.2.1)))

/-! ## cv_score (imported from finance_ml.model_selection, not under src/) -/

/-- The fold list a cross-validation run uses: the pre-built `cv_gen` when one
is supplied, else a fresh `PurgedKFold(n_splits, t1, pct_embargo).split(X)`. -/
def cvFolds (cv : CVEnv) (cv_gen : Option (List (List ℕ × List ℕ))) (n_splits : ℕ)
    (t1 : TSer) (pct_embargo : ℚ) (X : DF) : List (List ℕ × List ℕ) :=
  cv_gen.getD (cv.purged_k_fold n_splits t1 pct_embargo X)

/-- Modelled from the spec: the per-fold scores of `cv_score`
(`finance_ml.model_selection`, not under src/).  Per §4.3/§4.4 and §6, a
cross-validation run fits a classifier on each fold's train partition and
scores it on the fold's test partition with the named scoring, yielding one
score per fold. -/
def cvFoldScores {M : Type} (env : MLEnv M) (cv : CVEnv) (X : DF) (y : LSer)
    (w : Option WSer) (scoring : String) (cv_gen : Option (List (List ℕ × List ℕ)))
    (n_splits : ℕ) (t1 : TSer) (pct_embargo : ℚ) : List ℚ :=
  (cvFolds cv cv_gen n_splits t1 pct_embargo X).map
    (fun fold => foldFitScore env X y w scoring fold)

/-- Modelled from the spec: `cv_score` (`finance_ml.model_selection`, not under
src/).  Per §4.1 and §8, an unknown scoring name fails with
`InvalidConfiguration` before any fold executes and without performing any
fit; otherwise it returns one score per fold.  The second component records
the fit calls performed. -/
def cv_score {M : Type} (env : MLEnv M) (cv : CVEnv) (X : DF) (y : LSer)
    (w : Option WSer) (scoring : String) (cv_gen : Option (List (List ℕ × List ℕ)))
    (n_splits : ℕ) (t1 : TSer) (pct_embargo : ℚ) (purging : Bool) :
    Except PyError (List ℚ) × List FitCall :=
  if !(["neg_log_loss", "accuracy"].contains scoring) then
    (.error .invalidConfiguration, [])
  else
    (.ok (cvFoldScores env cv X y w scoring cv_gen n_splits t1 pct_embargo),
     (cvFolds cv cv_gen n_splits t1 pct_embargo X).map
       (fun fold => (X.iloc fold.1, ilocL y fold.1, wIloc w fold.1)))

/-! ## feat_imp_SFI (source lines 117-158) -/

/-- The loop body of `feat_imp_SFI` over the remaining feature names: one
complete cross-validation per feature on the single-column frame `X[[f]]`,
collecting `(mean, std * sqrt(len(scores)))` rows; a `cv_score` failure
propagates (aborting the whole computation, §7). -/
def feat_imp_SFI_loop {M : Type} (sq : ℚ → ℚ) (env : MLEnv M) (cv : CVEnv)
    (X : DF) (y : LSer) (w : Option WSer) (scoring : String)
    (n_splits : ℕ) (t1 : TSer) (cv_gen : Option (List (List ℕ × List ℕ)))
    (pct_embargo : ℚ) (purging : Bool) :
    List String → Except PyError (List (String × ℚ × ℚ)) × List FitCall
  | [] => (.ok [], [])
  | f :: rest =>
    match cv_score env cv (X.singleCol f) y w scoring cv_gen n_splits t1 pct_embargo purging with
    | (.error err, tr) => (.error err, tr)
    | (.ok scores, tr) =>
      match feat_imp_SFI_loop sq env cv X y w scoring n_splits t1 cv_gen pct_embargo purging rest with
      | (.error err, tr2) => (.error err, tr ++ tr2)
      | (.ok rows, tr2) =>
        (.ok ((f, listMean scores, sampleStd sq scores * sq (scores.length : ℚ)) :: rows),
         tr ++ tr2)

/-- Single Feature Importance (source lines 117-158): for every feature column
of `X`, run a complete cross-validation using only that column, and report the
mean and `std * np.sqrt(scores.shape[0])` of the fold scores. -/
def feat_imp_SFI {M : Type} (sq : ℚ → ℚ) (env : MLEnv M) (cv : CVEnv)
    (X : DF) (y : LSer) (w : Option WSer) (scoring : String)
    (n_splits : ℕ) (t1 : TSer) (cv_gen : Option (List (List ℕ × List ℕ)))
    (pct_embargo : ℚ) (purging : Bool) :
    Except PyError (List (String × ℚ × ℚ)) × List FitCall :=
  feat_imp_SFI_loop sq env cv X y w scoring n_splits t1 cv_gen pct_embargo purging X.cols

/-! ## feat_importance (source lines 161-195) -/

/-- The container `cont` bundling labels (`cont['size']`), weights
(`cont['w']`) and event spans (`cont['t1']`). -/
structure Cont where
  size : LSer
  w : WSer
  t1 : TSer

/-- The classifier prototype, carrying the only attribute the orchestrator
itself manipulates (`clf.n_jobs`). -/
structure Clf where
  n_jobs : Int
deriving DecidableEq

/-- The importance report the orchestrator returns: the MDI report carries
possibly-missing cells, the MDA/SFI reports are plain. -/
inductive Imp where
  | mdiR : List (String × Option ℚ × Option ℚ) → Imp
  | cvR : List (String × ℚ × ℚ) → Imp
deriving DecidableEq

/-- The parameter names of `feat_imp_SFI`, from its `def` line (source lines
117-118). -/
def sfiParamNames : List String :=
  ["clf", "X", "y", "sample_weight", "scoring", "n_splits", "t1", "cv_gen",
   "pct_embargo", "purging"]

/-- The parameters of `feat_imp_SFI` that have no default value. -/
def sfiRequiredParams : List String := ["clf", "X", "y"]

/-- The keyword names the orchestrator's SFI branch passes to the dispatcher
(source lines 192-194): the chunk argument `feat_names` plus the shared
keyword arguments `clf`, `X`, `cont`, `scoring`, `cv_gen`. -/
def sfiDispatchKwargs : List String :=
  ["feat_names", "clf", "X", "cont", "scoring", "cv_gen"]

/-- Modelled from the spec: `mp_pandas_obj` (`finance_ml.multiprocessing`, not
under src/).  Per §6, the dispatcher binds the chunk argument name and the
shared keyword arguments and invokes the task function by keyword; a Python
keyword call binds only when every keyword names a parameter of the callee and
every parameter without a default receives a value, and raises `TypeError`
otherwise. -/
def kwCallOk (params required kwargs : List String) : Bool :=
  kwargs.all (fun k => params.contains k) && required.all (fun k => kwargs.contains k)

/-- The `clf.n_jobs = 1` assignment performed before the SFI dispatch (source
line 191). -/
def sfiDispatchClf (c : Clf) : Clf := { c with n_jobs := 1 }

/-- The orchestrator (source lines 161-195).  It always fits the prototype on
the full dataset first, reads `oob_score_` when present, and dispatches on
`method`; an unknown method leaves `imp` and `oos` unassigned, so the final
`return imp, oob, oos` raises `UnboundLocalError`.  The second component
records the fit calls performed, the full-dataset fit first. -/
def feat_importance {M : Type} (sq : ℚ → ℚ) (env : MLEnv M) (cv : CVEnv)
    (X : DF) (cont : Cont) (clf : Option Clf) (n_estimators : ℕ) (n_splits : ℕ)
    (max_samples : ℚ) (num_threads : ℕ) (pct_embargo : ℚ) (scoring : String)
    (method : String) (min_w_leaf : ℚ) :
    Except PyError (Imp × Option ℚ × ℚ) × List FitCall :=
  let n_jobs : Int := if 1 < num_threads then -1 else 1
  let clf0 : Clf := clf.getD ⟨n_jobs⟩
  let fit_clf := env.fit X cont.size (some cont.w)
  let fullFit : FitCall := (X, cont.size, some cont.w)
  let oob := env.oob_score fit_clf
  if method = "MDI" then
    let imp := feat_imp_MDI sq (env.estimators fit_clf) X.cols
    match cv_score env cv X cont.size (some cont.w) scoring none n_splits cont.t1 pct_embargo true with
    | (.error e, tr) => (.error e, fullFit :: tr)
    | (.ok scores, tr) => (.ok (.mdiR imp, oob, listMean scores), fullFit :: tr)
  else if method = "MDA" then
    match feat_imp_MDA sq env cv X cont.size n_splits cont.t1 (some cont.w) pct_embargo scoring with
    | (.error e, tr) => (.error e, fullFit :: tr)
    | (.ok (imp, oos), tr) => (.ok (.cvR imp, oob, oos), fullFit :: tr)
  else if method = "SFI" then
    let cv_gen := cv.purged_k_fold n_splits cont.t1 pct_embargo X
    match cv_score env cv X cont.size (some cont.w) scoring (some cv_gen) n_splits cont.t1 pct_embargo true with
    | (.error e, tr) => (.error e, fullFit :: tr)
    | (.ok scores, tr) =>
      let clf1 := sfiDispatchClf clf0
      if kwCallOk sfiParamNames sfiRequiredParams sfiDispatchKwargs then
        -- Unreachable at this call site: the keyword binding fails (see
        -- sfi_dispatch_type_error below), so the dispatched tasks - which
        -- Python would run here - never execute; the required parameter y is
        -- not even among the passed keywords, so no call can be formed.
        (.ok (.cvR [], oob, listMean scores), fullFit :: tr)
      else
        (.error .typeError, fullFit :: tr)
  else
    (.error .unboundLocalError, [fullFit])

/-! ## Concrete instances used to exercise the definitions -/

/-- A concrete square-root stand-in (the theorems hold for every `sq`). -/
def sqId : ℚ → ℚ := fun q => q

/-- A concrete classifier environment over a trivial fitted-model type:
probabilistic log-loss is 0 and accuracy is 1 everywhere. -/
def envT : MLEnv Unit :=
  ⟨fun _ _ _ => (), fun _ _ => [], fun _ _ => [], fun _ => [],
   fun _ _ _ _ => 0, fun _ _ _ => 1, fun _ => [[1]], fun _ => none⟩

/-- A concrete splitter environment: `n` singleton folds, identity shuffle. -/
def cvT : CVEnv :=
  ⟨fun n _ _ _ => (List.range n).map (fun i => ([i], [i])), fun _ _ l => l⟩

/-- A concrete 2-row, 1-column feature matrix. -/
def XT : DF := ⟨2, ["a"], fun _ _ => 1⟩

/-- A concrete feature matrix with no feature columns. -/
def XE : DF := ⟨2, [], fun _ _ => 1⟩

/-- A concrete label/weight/span container aligned with `XT`. -/
def contT : Cont := ⟨[1, 1], [1, 1], [(0, 0), (0, 0)]⟩

/-! ## Helper lemmas -/

lemma list_sum_div (l : List ℚ) (s : ℚ) : (l.map (fun x => x / s)).sum = l.sum / s := by
  induction l with
  | nil => simp
  | cons x xs ih => simp [ih, add_div]

lemma nanVals_map_nanCell (l : List ℚ) :
    nanVals (l.map nanCell) = l.filter (fun x => decide (x ≠ 0)) := by
  induction l with
  | nil => rfl
  | cons x xs ih =>
    by_cases hx : x = 0 <;> simp [nanVals, nanCell, hx, List.filterMap_cons, ih] <;>
      simpa [nanVals] using ih

lemma zip_range_map {β γ : Type} (d : β) :
    ∀ (folds : List β) (n : ℕ) (g : ℕ × β → γ), folds.length = n →
      ((List.range n).zip folds).map g
        = (List.range n).map (fun i => g (i, folds.getD i d)) := by
  intro folds
  induction folds with
  | nil =>
    intro n g h
    simp at h
    subst h
    simp
  | cons b bs ih =>
    intro n g h
    cases n with
    | zero => simp at h
    | succ m =>
      have hm : bs.length = m := by simpa using h
      rw [List.range_succ_eq_map, List.zip_cons_cons, List.map_cons, List.map_cons,
        List.zip_map_left, List.map_map, List.map_map]
      congr 1
      calc ((List.range m).zip bs).map (g ∘ Prod.map Nat.succ id)
          = ((List.range m).zip bs).map (fun p => g (p.1.succ, p.2)) := rfl
        _ = (List.range m).map (fun i => g (i.succ, bs.getD i d)) :=
            ih m (fun p => g (p.1.succ, p.2)) hm
        _ = (List.range m).map ((fun i => g (i, (b :: bs).getD i d)) ∘ Nat.succ) := by
            simp [Function.comp, List.getD_cons_succ]

lemma mdiColumn_nonneg (estimators : List (List ℚ))
    (hnn : ∀ v ∈ estimators, ∀ x ∈ v, 0 ≤ x) (j : ℕ) :
    ∀ x ∈ mdiColumn estimators j, 0 ≤ x := by
  intro x hx
  obtain ⟨v, hv, rfl⟩ := List.mem_map.mp hx
  by_cases hj : j < v.length
  · rw [List.getD_eq_getElem v 0 hj]
    exact hnn v hv _ (List.getElem_mem hj)
  · rw [List.getD_eq_default]
    omega

lemma nanMean_getD_nonneg (l : List ℚ) (h : ∀ x ∈ l, 0 ≤ x) :
    0 ≤ (nanMean (l.map nanCell)).getD 0 := by
  rw [nanMean, nanVals_map_nanCell]
  by_cases hfl : l.filter (fun x => decide (x ≠ 0)) = []
  · rw [if_pos hfl]
    exact le_refl 0
  · rw [if_neg hfl, Option.getD_some, listMean]
    apply div_nonneg
    · exact List.sum_nonneg (fun x hx => h x (List.mem_of_mem_filter hx))
    · exact Nat.cast_nonneg _

lemma nanMean_getD_pos (l : List ℚ) (h : ∀ x ∈ l, 0 ≤ x) (x : ℚ) (hx : x ∈ l)
    (hxne : x ≠ 0) : 0 < (nanMean (l.map nanCell)).getD 0 := by
  have hxf : x ∈ l.filter (fun a => decide (a ≠ 0)) :=
    List.mem_filter.mpr ⟨hx, by simp [hxne]⟩
  rw [nanMean, nanVals_map_nanCell, if_neg (List.ne_nil_of_mem hxf),
    Option.getD_some, listMean]
  apply div_pos
  · have h1 : 0 < x := lt_of_le_of_ne (h x hx) (Ne.symm hxne)
    have h2 : x ≤ (l.filter (fun a => decide (a ≠ 0))).sum :=
      List.single_le_sum (fun y hy => h y (List.mem_of_mem_filter hy)) x hxf
    linarith
  · exact_mod_cast List.length_pos.mpr (List.ne_nil_of_mem hxf)

lemma cv_score_ok {M : Type} (env : MLEnv M) (cv : CVEnv) (X : DF) (y : LSer)
    (w : Option WSer) (scoring : String) (cv_gen : Option (List (List ℕ × List ℕ)))
    (n_splits : ℕ) (t1 : TSer) (pct_embargo : ℚ) (purging : Bool)
    (hc : (["neg_log_loss", "accuracy"].contains scoring) = true) :
    cv_score env cv X y w scoring cv_gen n_splits t1 pct_embargo purging
      = (.ok (cvFoldScores env cv X y w scoring cv_gen n_splits t1 pct_embargo),
         (cvFolds cv cv_gen n_splits t1 pct_embargo X).map
           (fun fold => (X.iloc fold.1, ilocL y fold.1, wIloc w fold.1))) := by
  rw [cv_score, if_neg (by simp only [hc, Bool.not_true, Bool.false_eq_true,
    not_false_eq_true])]

/-! ## Claim theorems -/

/-- C9: the MDA normalization denominator is unguarded.  The divisor used for
the importance ratio is exactly `mdaMaxImprv`; under `'accuracy'` scoring it
vanishes precisely when the permuted score equals 1, under `'neg_log_loss'`
precisely when the permuted score equals 0, and the reported ratio is the
improvement `baseline - permuted` divided by this unguarded quantity, so every
reported importance is a well-defined finite value only under the precondition
that no permuted score hits those values. -/
theorem mda_denominator_unguarded (scoring : String) (b sp : ℚ) :
    (mdaMaxImprv "accuracy" sp = 0 ↔ sp = 1)
    ∧ (mdaMaxImprv "neg_log_loss" sp = 0 ↔ sp = 0)
    ∧ mdaRatio scoring b sp = (b - sp) / mdaMaxImprv scoring sp := by
  refine ⟨?_, ?_, ?_⟩
  · rw [show mdaMaxImprv "accuracy" sp = 1 - sp from rfl, sub_eq_zero]
    exact eq_comm
  · rw [show mdaMaxImprv "neg_log_loss" sp = -sp from rfl]
    exact neg_eq_zero
  · rw [mdaRatio, neg_add_eq_sub]

/-- C5: per-feature permutation isolation in `feat_imp_MDA`.  The permuted
test matrix built for feature `c` agrees with the shared test partition
`X.iloc test` on every other column `c2`; the shared test partition reads the
unmutated input matrix `X`; the permuted copy's own column is the shuffle of
the copied column values; and the baseline fold score is computed on the
unpermuted test partition. -/
theorem mda_permutation_isolation (M : Type) (env : MLEnv M) (cv : CVEnv) (X : DF)
    (y : LSer) (w : Option WSer) (scoring : String) (idx : ℕ)
    (fold : List ℕ × List ℕ) (c c2 : String) (h : c2 ≠ c) (i : ℕ) :
    (mdaPermMatrix cv (X.iloc fold.2) idx c).val i c2 = (X.iloc fold.2).val i c2
    ∧ (X.iloc fold.2).val i c2 = X.val (fold.2.getD i 0) c2
    ∧ (mdaPermMatrix cv (X.iloc fold.2) idx c).val i c
        = (cv.shuffle idx c ((X.iloc fold.2).colVals c)).getD i 0
    ∧ foldFitScore env X y w scoring fold
        = foldScore env (mdaFoldFit env X y w fold.1) scoring (X.iloc fold.2)
            (ilocL y fold.2) (wIloc w fold.2) := by
  refine ⟨?_, rfl, ?_, rfl⟩
  · simp [mdaPermMatrix, DF.setCol, DF.copy, h]
  · simp [mdaPermMatrix, DF.setCol, DF.copy]

/-- Witness for C5 at a concrete fold and feature pair. -/
theorem mda_permutation_isolation_witness :
    ("b" : String) ≠ "a"
    ∧ ((mdaPermMatrix cvT (XT.iloc [0]) 0 "a").val 0 "b" = (XT.iloc [0]).val 0 "b"
      ∧ (XT.iloc [0]).val 0 "b" = XT.val ([0].getD 0 0) "b"
      ∧ (mdaPermMatrix cvT (XT.iloc [0]) 0 "a").val 0 "a"
          = (cvT.shuffle 0 "a" ((XT.iloc [0]).colVals "a")).getD 0 0
      ∧ foldFitScore envT XT [1, 1] none "accuracy" ([0], [0])
          = foldScore envT (mdaFoldFit envT XT [1, 1] none [0]) "accuracy"
              (XT.iloc [0]) (ilocL [1, 1] [0]) (wIloc none [0])) :=
  ⟨by decide,
   mda_permutation_isolation Unit envT cvT XT [1, 1] none "accuracy" 0 ([0], [0])
     "a" "b" (by decide) 0⟩

/-- C10: for every method selector outside MDI, MDA, SFI, the orchestrator
fits the prototype on the full dataset (the single recorded fit call) and then
fails with an unbound-local error at the return statement, returning no
importance report. -/
theorem feat_importance_unknown_method (M : Type) (sq : ℚ → ℚ) (env : MLEnv M)
    (cv : CVEnv) (X : DF) (cont : Cont) (clf : Option Clf)
    (n_estimators n_splits : ℕ) (max_samples : ℚ) (num_threads : ℕ)
    (pct_embargo : ℚ) (scoring method : String) (min_w_leaf : ℚ)
    (h1 : method ≠ "MDI") (h2 : method ≠ "MDA") (h3 : method ≠ "SFI") :
    feat_importance sq env cv X cont clf n_estimators n_splits max_samples
        num_threads pct_embargo scoring method min_w_leaf
      = (.error .unboundLocalError, [(X, cont.size, some cont.w)]) := by
  simp [feat_importance, h1, h2, h3]

/-- Witness for C10 at the concrete method name "XYZ". -/
theorem feat_importance_unknown_method_witness :
    ("XYZ" : String) ≠ "MDI" ∧ ("XYZ" : String) ≠ "MDA" ∧ ("XYZ" : String) ≠ "SFI"
    ∧ feat_importance sqId envT cvT XT contT none 1000 10 1 24 0 "accuracy" "XYZ" 0
        = (.error .unboundLocalError, [(XT, contT.size, some contT.w)]) :=
  ⟨by decide, by decide, by decide,
   feat_importance_unknown_method Unit sqId envT cvT XT contT none 1000 10 1 24 0
     "accuracy" "XYZ" 0 (by decide) (by decide) (by decide)⟩

/-- C4 (amended): for a scoring name outside neg_log_loss and accuracy,
`feat_imp_MDA` fails with the configuration error before any fold executes and
with no fit performed (empty fit trace), and `feat_imp_SFI` does the same
provided the feature matrix has at least one column (its loop body otherwise
never runs, see the counterexample). -/
theorem scoring_validation_fail_fast (M : Type) (sq : ℚ → ℚ) (env : MLEnv M)
    (cv : CVEnv) (X : DF) (y : LSer) (w : Option WSer) (n_splits : ℕ) (t1 : TSer)
    (cv_gen : Option (List (List ℕ × List ℕ))) (pct_embargo : ℚ) (purging : Bool)
    (scoring : String)
    (h1 : scoring ≠ "neg_log_loss") (h2 : scoring ≠ "accuracy")
    (hcols : X.cols ≠ []) :
    feat_imp_MDA sq env cv X y n_splits t1 w pct_embargo scoring
      = (.error .invalidConfiguration, [])
    ∧ feat_imp_SFI sq env cv X y w scoring n_splits t1 cv_gen pct_embargo purging
      = (.error .invalidConfiguration, []) := by
  refine ⟨?_, ?_⟩
  · simp [feat_imp_MDA, h1, h2]
  · rcases hX : X.cols with _ | ⟨f, rest⟩
    · exact absurd hX hcols
    · simp [feat_imp_SFI, hX, feat_imp_SFI_loop, cv_score, h1, h2]

/-- Witness for C4 at the concrete scoring name "foo" on a one-column matrix. -/
theorem scoring_validation_fail_fast_witness :
    ("foo" : String) ≠ "neg_log_loss" ∧ ("foo" : String) ≠ "accuracy"
    ∧ XT.cols ≠ []
    ∧ (feat_imp_MDA sqId envT cvT XT [1, 1] 3 [] none 0 "foo"
        = (.error .invalidConfiguration, [])
      ∧ feat_imp_SFI sqId envT cvT XT [1, 1] none "foo" 3 [] none 0 true
        = (.error .invalidConfiguration, [])) :=
  ⟨by decide, by decide, by decide,
   scoring_validation_fail_fast Unit sqId envT cvT XT [1, 1] none 3 [] none 0 true
     "foo" (by decide) (by decide) (by decide)⟩

/-- C3: in `feat_imp_MDI`, every zero cell becomes missing before aggregation,
so each feature's mean and std are computed only over the trees whose
importance for that feature is nonzero, and the dispersion entry is that
sample std multiplied by `sqrt` of the total number of trees (the row count of
the stacked table), not the raw sample std. -/
theorem mdi_nonzero_aggregation (sq : ℚ → ℚ) (estimators : List (List ℚ))
    (feat_names : List String) (j : ℕ) (hj : j < feat_names.length) :
    (feat_imp_MDI_raw sq estimators feat_names)[j]? =
      some (feat_names.getD j "",
        (if (mdiColumn estimators j).filter (fun x => decide (x ≠ 0)) = [] then none
         else some (listMean ((mdiColumn estimators j).filter (fun x => decide (x ≠ 0))))),
        (if 2 ≤ ((mdiColumn estimators j).filter (fun x => decide (x ≠ 0))).length then
           some (sampleStd sq ((mdiColumn estimators j).filter (fun x => decide (x ≠ 0)))
             * sq (estimators.length : ℚ))
         else none)) := by
  rw [feat_imp_MDI_raw, List.getElem?_map, List.getElem?_range hj]
  simp only [Option.map_some']
  rw [nanMean, nanStd, nanVals_map_nanCell,
    apply_ite (Option.map (fun x => x * sq (estimators.length : ℚ))),
    Option.map_some', Option.map_none']

/-- Witness for C3 at a concrete two-tree forest and the first feature. -/
theorem mdi_nonzero_aggregation_witness :
    0 < ["a", "b"].length
    ∧ (feat_imp_MDI_raw sqId [[1, 0], [1/2, 1/2]] ["a", "b"])[0]? =
      some (["a", "b"].getD 0 "",
        (if (mdiColumn [[1, 0], [1/2, 1/2]] 0).filter (fun x => decide (x ≠ 0)) = [] then none
         else some (listMean ((mdiColumn [[1, 0], [1/2, 1/2]] 0).filter (fun x => decide (x ≠ 0))))),
        (if 2 ≤ ((mdiColumn [[1, 0], [1/2, 1/2]] 0).filter (fun x => decide (x ≠ 0))).length then
           some (sampleStd sqId ((mdiColumn [[1, 0], [1/2, 1/2]] 0).filter (fun x => decide (x ≠ 0)))
             * sqId (([[1, 0], [1/2, 1/2]] : List (List ℚ)).length : ℚ))
         else none)) :=
  ⟨by decide, mdi_nonzero_aggregation sqId [[1, 0], [1/2, 1/2]] ["a", "b"] 0 (by decide)⟩

/-- C2: for a fitted ensemble with nonnegative per-tree importance vectors of
the right width, at least one of whose entries is nonzero, the per-feature
means reported by `feat_imp_MDI` sum to 1, because every mean is divided by
the sum of the means across all features. -/
theorem mdi_means_sum_to_one (sq : ℚ → ℚ) (estimators : List (List ℚ))
    (feat_names : List String)
    (hlen : ∀ v ∈ estimators, v.length = feat_names.length)
    (hnn : ∀ v ∈ estimators, ∀ x ∈ v, 0 ≤ x)
    (hnz : ∃ v ∈ estimators, ∃ x ∈ v, x ≠ 0) :
    ((feat_imp_MDI sq estimators feat_names).map (fun r => r.2.1.getD 0)).sum = 1 := by
  have hterm : ∀ r ∈ feat_imp_MDI_raw sq estimators feat_names, 0 ≤ r.2.1.getD 0 := by
    intro r hr
    rw [feat_imp_MDI_raw] at hr
    obtain ⟨j, hjmem, rfl⟩ := List.mem_map.mp hr
    exact nanMean_getD_nonneg (mdiColumn estimators j) (mdiColumn_nonneg estimators hnn j)
  have hex : ∃ r ∈ feat_imp_MDI_raw sq estimators feat_names, 0 < r.2.1.getD 0 := by
    obtain ⟨v, hv, x, hx, hxne⟩ := hnz
    obtain ⟨j, hjv, hxj⟩ := List.mem_iff_getElem.mp hx
    have hjn : j < feat_names.length := by rw [← hlen v hv]; exact hjv
    rw [feat_imp_MDI_raw]
    refine ⟨_, List.mem_map_of_mem _ (List.mem_range.mpr hjn), ?_⟩
    show 0 < (nanMean ((mdiColumn estimators j).map nanCell)).getD 0
    refine nanMean_getD_pos _ (mdiColumn_nonneg estimators hnn j) x ?_ hxne
    rw [mdiColumn]
    exact List.mem_map.mpr ⟨v, hv, by rw [List.getD_eq_getElem v 0 hjv]; exact hxj⟩
  obtain ⟨r, hrmem, hrpos⟩ := hex
  have hrle : r.2.1.getD 0 ≤
      ((feat_imp_MDI_raw sq estimators feat_names).map (fun r => r.2.1.getD 0)).sum := by
    refine List.single_le_sum ?_ _ (List.mem_map_of_mem _ hrmem)
    intro x hx
    obtain ⟨r', hr', rfl⟩ := List.mem_map.mp hx
    exact hterm r' hr'
  have hspos :
      0 < ((feat_imp_MDI_raw sq estimators feat_names).map (fun r => r.2.1.getD 0)).sum :=
    lt_of_lt_of_le hrpos hrle
  have hkey : (feat_imp_MDI sq estimators feat_names).map (fun r => r.2.1.getD 0)
      = ((feat_imp_MDI_raw sq estimators feat_names).map (fun r => r.2.1.getD 0)).map
          (fun x => x /
            ((feat_imp_MDI_raw sq estimators feat_names).map (fun r => r.2.1.getD 0)).sum) := by
    rw [feat_imp_MDI]
    rw [List.map_map, List.map_map]
    refine List.map_congr_left ?_
    intro r hr
    cases hr21 : r.2.1 <;> simp [Function.comp, hr21, zero_div]
  rw [hkey, list_sum_div, div_self (ne_of_gt hspos)]

/-- Witness for C2 at a concrete two-tree, two-feature forest. -/
theorem mdi_means_sum_to_one_witness :
    (∀ v ∈ [[1, 0], [(1:ℚ)/2, 1/2]], v.length = ["a", "b"].length)
    ∧ (∀ v ∈ [[1, 0], [(1:ℚ)/2, 1/2]], ∀ x ∈ v, 0 ≤ x)
    ∧ (∃ v ∈ [[1, 0], [(1:ℚ)/2, 1/2]], ∃ x ∈ v, x ≠ 0)
    ∧ ((feat_imp_MDI sqId [[1, 0], [(1:ℚ)/2, 1/2]] ["a", "b"]).map
        (fun r => r.2.1.getD 0)).sum = 1 :=
  ⟨by norm_num, by norm_num, ⟨[1, 0], by norm_num, 1, by norm_num, by norm_num⟩,
   mdi_means_sum_to_one sqId [[1, 0], [(1:ℚ)/2, 1/2]] ["a", "b"]
     (by norm_num) (by norm_num) ⟨[1, 0], by norm_num, 1, by norm_num, by norm_num⟩⟩

/-- C1: shape of the MDA report.  For every feature column, the reported
importance over the folds is `(baseline - permuted) / denominator` with the
denominator `-permuted` under neg_log_loss scoring and `1 - permuted` under
accuracy scoring; the report holds the mean of this ratio over the folds and
its sample std multiplied by `sqrt(n_splits)`, and the returned out-of-sample
score is the mean of the per-fold baseline scores. -/
theorem mda_report_spec (M : Type) (sq : ℚ → ℚ) (env : MLEnv M) (cv : CVEnv)
    (X : DF) (y : LSer) (n_splits : ℕ) (t1 : TSer) (w : Option WSer)
    (pct_embargo : ℚ) (scoring : String)
    (hs : scoring = "neg_log_loss" ∨ scoring = "accuracy")
    (hfolds : (cv.purged_k_fold n_splits t1 pct_embargo X).length = n_splits) :
    (feat_imp_MDA sq env cv X y n_splits t1 w pct_embargo scoring).1 =
      .ok (X.cols.map (fun c =>
        (c,
         listMean ((List.range n_splits).map (fun i =>
           (foldFitScore env X y w scoring
               ((cv.purged_k_fold n_splits t1 pct_embargo X).getD i ([], []))
             - mdaPermScore env cv X y w scoring i
                 ((cv.purged_k_fold n_splits t1 pct_embargo X).getD i ([], [])) c)
           / (if scoring = "neg_log_loss" then
                -(mdaPermScore env cv X y w scoring i
                   ((cv.purged_k_fold n_splits t1 pct_embargo X).getD i ([], [])) c)
              else 1 - mdaPermScore env cv X y w scoring i
                   ((cv.purged_k_fold n_splits t1 pct_embargo X).getD i ([], [])) c))),
         sampleStd sq ((List.range n_splits).map (fun i =>
           (foldFitScore env X y w scoring
               ((cv.purged_k_fold n_splits t1 pct_embargo X).getD i ([], []))
             - mdaPermScore env cv X y w scoring i
                 ((cv.purged_k_fold n_splits t1 pct_embargo X).getD i ([], [])) c)
           / (if scoring = "neg_log_loss" then
                -(mdaPermScore env cv X y w scoring i
                   ((cv.purged_k_fold n_splits t1 pct_embargo X).getD i ([], [])) c)
              else 1 - mdaPermScore env cv X y w scoring i
                   ((cv.purged_k_fold n_splits t1 pct_embargo X).getD i ([], [])) c)))
           * sq (n_splits : ℚ))),
       listMean ((List.range n_splits).map (fun i =>
         foldFitScore env X y w scoring
           ((cv.purged_k_fold n_splits t1 pct_embargo X).getD i ([], []))))) := by
  have hc : (["neg_log_loss", "accuracy"].contains scoring) = true := by
    rcases hs with h | h <;> simp [h]
  rw [feat_imp_MDA, if_neg (by simp only [hc, Bool.not_true, Bool.false_eq_true, not_false_eq_true])]
  simp only [zip_range_map ([], []) (cv.purged_k_fold n_splits t1 pct_embargo X) n_splits,
    hfolds, mdaRatio, mdaMaxImprv, neg_add_eq_sub]

/-- Witness for C1 at a concrete one-fold environment with accuracy scoring. -/
theorem mda_report_spec_witness :
    (("accuracy" : String) = "neg_log_loss" ∨ ("accuracy" : String) = "accuracy")
    ∧ (cvT.purged_k_fold 1 [] 0 XT).length = 1
    ∧ (feat_imp_MDA sqId envT cvT XT [1, 1] 1 [] none 0 "accuracy").1 =
      .ok (XT.cols.map (fun c =>
        (c,
         listMean ((List.range 1).map (fun i =>
           (foldFitScore envT XT [1, 1] none "accuracy"
               ((cvT.purged_k_fold 1 [] 0 XT).getD i ([], []))
             - mdaPermScore envT cvT XT [1, 1] none "accuracy" i
                 ((cvT.purged_k_fold 1 [] 0 XT).getD i ([], [])) c)
           / (if ("accuracy" : String) = "neg_log_loss" then
                -(mdaPermScore envT cvT XT [1, 1] none "accuracy" i
                   ((cvT.purged_k_fold 1 [] 0 XT).getD i ([], [])) c)
              else 1 - mdaPermScore envT cvT XT [1, 1] none "accuracy" i
                   ((cvT.purged_k_fold 1 [] 0 XT).getD i ([], [])) c))),
         sampleStd sqId ((List.range 1).map (fun i =>
           (foldFitScore envT XT [1, 1] none "accuracy"
               ((cvT.purged_k_fold 1 [] 0 XT).getD i ([], []))
             - mdaPermScore envT cvT XT [1, 1] none "accuracy" i
                 ((cvT.purged_k_fold 1 [] 0 XT).getD i ([], [])) c)
           / (if ("accuracy" : String) = "neg_log_loss" then
                -(mdaPermScore envT cvT XT [1, 1] none "accuracy" i
                   ((cvT.purged_k_fold 1 [] 0 XT).getD i ([], [])) c)
              else 1 - mdaPermScore envT cvT XT [1, 1] none "accuracy" i
                   ((cvT.purged_k_fold 1 [] 0 XT).getD i ([], [])) c)))
           * sqId ((1 : ℕ) : ℚ))),
       listMean ((List.range 1).map (fun i =>
         foldFitScore envT XT [1, 1] none "accuracy"
           ((cvT.purged_k_fold 1 [] 0 XT).getD i ([], []))))) :=
  ⟨Or.inr rfl, by decide,
   mda_report_spec Unit sqId envT cvT XT [1, 1] 1 [] none 0 "accuracy"
     (Or.inr rfl) (by decide)⟩

lemma sfi_loop_ok {M : Type} (sq : ℚ → ℚ) (env : MLEnv M) (cv : CVEnv) (X : DF)
    (y : LSer) (w : Option WSer) (scoring : String) (n_splits : ℕ) (t1 : TSer)
    (cv_gen : Option (List (List ℕ × List ℕ))) (pct_embargo : ℚ) (purging : Bool)
    (hc : (["neg_log_loss", "accuracy"].contains scoring) = true) :
    ∀ fs : List String,
      (feat_imp_SFI_loop sq env cv X y w scoring n_splits t1 cv_gen pct_embargo purging fs).1
        = .ok (fs.map (fun f =>
            (f,
             listMean (cvFoldScores env cv (X.singleCol f) y w scoring cv_gen n_splits t1 pct_embargo),
             sampleStd sq (cvFoldScores env cv (X.singleCol f) y w scoring cv_gen n_splits t1 pct_embargo)
               * sq ((cvFoldScores env cv (X.singleCol f) y w scoring cv_gen n_splits t1 pct_embargo).length : ℚ)))) := by
  intro fs
  induction fs with
  | nil => rfl
  | cons f rest ih =>
    rw [feat_imp_SFI_loop]
    rw [show cv_score env cv (X.singleCol f) y w scoring cv_gen n_splits t1 pct_embargo purging
        = (.ok (cvFoldScores env cv (X.singleCol f) y w scoring cv_gen n_splits t1 pct_embargo),
           (cvFolds cv cv_gen n_splits t1 pct_embargo (X.singleCol f)).map
             (fun fold => ((X.singleCol f).iloc fold.1, ilocL y fold.1, wIloc w fold.1)))
      from by rw [cv_score, if_neg (by simp only [hc, Bool.not_true, Bool.false_eq_true, not_false_eq_true])]]
    rcases hrec : feat_imp_SFI_loop sq env cv X y w scoring n_splits t1 cv_gen pct_embargo purging rest
      with ⟨r2, tr2⟩
    rw [hrec] at ih
    dsimp only at ih ⊢
    rw [ih, List.map_cons]

/-- C6: for every feature column of `X`, `feat_imp_SFI` runs a complete
cross-validation (one fitted-and-scored classifier per fold) on the
single-column frame `X[[f]]` alone, and reports per feature the mean of those
fold scores and their sample std multiplied by `sqrt` of the number of folds. -/
theorem sfi_single_column_cv (M : Type) (sq : ℚ → ℚ) (env : MLEnv M) (cv : CVEnv)
    (X : DF) (y : LSer) (w : Option WSer) (scoring : String) (n_splits : ℕ)
    (t1 : TSer) (cv_gen : Option (List (List ℕ × List ℕ))) (pct_embargo : ℚ)
    (purging : Bool)
    (hs : scoring = "neg_log_loss" ∨ scoring = "accuracy") :
    (feat_imp_SFI sq env cv X y w scoring n_splits t1 cv_gen pct_embargo purging).1
      = .ok (X.cols.map (fun f =>
          (f,
           listMean (cvFoldScores env cv (X.singleCol f) y w scoring cv_gen n_splits t1 pct_embargo),
           sampleStd sq (cvFoldScores env cv (X.singleCol f) y w scoring cv_gen n_splits t1 pct_embargo)
             * sq ((cvFolds cv cv_gen n_splits t1 pct_embargo (X.singleCol f)).length : ℚ)))) := by
  have hc : (["neg_log_loss", "accuracy"].contains scoring) = true := by
    rcases hs with h | h <;> simp [h]
  rw [feat_imp_SFI,
    sfi_loop_ok sq env cv X y w scoring n_splits t1 cv_gen pct_embargo purging hc X.cols]
  simp only [cvFoldScores, List.length_map]

/-- Witness for C6 at a concrete environment with neg_log_loss scoring. -/
theorem sfi_single_column_cv_witness :
    (("neg_log_loss" : String) = "neg_log_loss" ∨ ("neg_log_loss" : String) = "accuracy")
    ∧ (feat_imp_SFI sqId envT cvT XT [1, 1] none "neg_log_loss" 2 [] none 0 true).1
      = .ok (XT.cols.map (fun f =>
          (f,
           listMean (cvFoldScores envT cvT (XT.singleCol f) [1, 1] none "neg_log_loss" none 2 [] 0),
           sampleStd sqId (cvFoldScores envT cvT (XT.singleCol f) [1, 1] none "neg_log_loss" none 2 [] 0)
             * sqId ((cvFolds cvT none 2 [] 0 (XT.singleCol f)).length : ℚ)))) :=
  ⟨Or.inl rfl,
   sfi_single_column_cv Unit sqId envT cvT XT [1, 1] none "neg_log_loss" 2 [] none 0 true
     (Or.inl rfl)⟩

/-- Counterexample for C4: on a feature matrix with no columns, `feat_imp_SFI`
with the invalid scoring name "foo" succeeds with an empty report instead of
failing with the configuration error, because its per-feature loop never runs
and the scoring name is only checked inside `cv_score`. -/
theorem sfi_empty_matrix_no_error :
    feat_imp_SFI sqId envT cvT XE [1, 1] none "foo" 3 [] none 0 true = (.ok [], [])
    ∧ ("foo" : String) ≠ "neg_log_loss" ∧ ("foo" : String) ≠ "accuracy" :=
  ⟨rfl, by decide, by decide⟩

/-- C7: the SFI dispatch is broken.  The keyword set the orchestrator passes
to the dispatcher does not bind against `feat_imp_SFI`'s parameters: the chunk
keyword `feat_names` (and the shared keyword `cont`) is not a parameter of
`feat_imp_SFI`, and the required parameter `y` receives no value, so the
dispatched call raises `TypeError` and the orchestrator produces no report for
method SFI, even though `clf.n_jobs` is set to 1 before the dispatch as the
claim says. -/
theorem sfi_dispatch_type_error :
    kwCallOk sfiParamNames sfiRequiredParams sfiDispatchKwargs = false
    ∧ "feat_names" ∈ sfiDispatchKwargs ∧ "feat_names" ∉ sfiParamNames
    ∧ "cont" ∈ sfiDispatchKwargs ∧ "cont" ∉ sfiParamNames
    ∧ "y" ∈ sfiRequiredParams ∧ "y" ∉ sfiDispatchKwargs
    ∧ (∀ c : Clf, (sfiDispatchClf c).n_jobs = 1)
    ∧ (feat_importance sqId envT cvT XT contT none 1000 2 1 24 0 "accuracy" "SFI" 0).1
        = .error .typeError :=
  ⟨by decide, by decide, by decide, by decide, by decide, by decide, by decide,
   fun c => rfl, by rfl⟩

/-- C8 (amended): with a valid scoring mode, `feat_importance` always fits the
prototype on the full dataset first (the head of its fit trace); for methods
MDI and MDA it returns the triple of importance report, `oob_score_` when the
fitted model exposes one (`none` otherwise), and out-of-sample score; for
method SFI the full-dataset fit still happens first, but the dispatch fails
with a `TypeError` (see the C7 analysis), so no triple is returned. -/
theorem feat_importance_fit_first (M : Type) (sq : ℚ → ℚ) (env : MLEnv M)
    (cv : CVEnv) (X : DF) (cont : Cont) (clf : Option Clf)
    (n_estimators n_splits : ℕ) (max_samples : ℚ) (num_threads : ℕ)
    (pct_embargo : ℚ) (scoring : String) (min_w_leaf : ℚ)
    (hs : scoring = "neg_log_loss" ∨ scoring = "accuracy") :
    feat_importance sq env cv X cont clf n_estimators n_splits max_samples
        num_threads pct_embargo scoring "MDI" min_w_leaf
      = (.ok (.mdiR (feat_imp_MDI sq (env.estimators (env.fit X cont.size (some cont.w))) X.cols),
              env.oob_score (env.fit X cont.size (some cont.w)),
              listMean (cvFoldScores env cv X cont.size (some cont.w) scoring none n_splits cont.t1 pct_embargo)),
         (X, cont.size, some cont.w)
           :: (cvFolds cv none n_splits cont.t1 pct_embargo X).map
                (fun fold => (X.iloc fold.1, ilocL cont.size fold.1, wIloc (some cont.w) fold.1)))
    ∧ (∃ imp oos,
        (feat_imp_MDA sq env cv X cont.size n_splits cont.t1 (some cont.w) pct_embargo scoring).1
          = .ok (imp, oos)
        ∧ feat_importance sq env cv X cont clf n_estimators n_splits max_samples
              num_threads pct_embargo scoring "MDA" min_w_leaf
            = (.ok (.cvR imp, env.oob_score (env.fit X cont.size (some cont.w)), oos),
               (X, cont.size, some cont.w)
                 :: (feat_imp_MDA sq env cv X cont.size n_splits cont.t1 (some cont.w) pct_embargo scoring).2))
    ∧ (feat_importance sq env cv X cont clf n_estimators n_splits max_samples
          num_threads pct_embargo scoring "SFI" min_w_leaf).1 = .error .typeError
    ∧ (feat_importance sq env cv X cont clf n_estimators n_splits max_samples
          num_threads pct_embargo scoring "SFI" min_w_leaf).2.head?
        = some (X, cont.size, some cont.w) := by
  have hc : (["neg_log_loss", "accuracy"].contains scoring) = true := by
    rcases hs with h | h <;> simp [h]
  refine ⟨?_, ?_, ?_, ?_⟩
  · rw [feat_importance, if_pos rfl,
      cv_score_ok env cv X cont.size (some cont.w) scoring none n_splits cont.t1 pct_embargo true hc]
  · obtain ⟨imp, oos, tr, hp⟩ :
        ∃ imp oos tr,
          feat_imp_MDA sq env cv X cont.size n_splits cont.t1 (some cont.w) pct_embargo scoring
            = (.ok (imp, oos), tr) :=
      ⟨_, _, _, by
        rw [feat_imp_MDA, if_neg (by simp only [hc, Bool.not_true, Bool.false_eq_true,
          not_false_eq_true])]⟩
    refine ⟨imp, oos, by rw [hp], ?_⟩
    rw [feat_importance, if_neg (by decide), if_pos rfl, hp]
  · rw [feat_importance, if_neg (by decide), if_neg (by decide), if_pos rfl]
    simp only [cv_score_ok env cv X cont.size (some cont.w) scoring
      (some (cv.purged_k_fold n_splits cont.t1 pct_embargo X)) n_splits cont.t1 pct_embargo true hc]
    rw [if_neg (show ¬(kwCallOk sfiParamNames sfiRequiredParams sfiDispatchKwargs = true)
      from by decide)]
  · rw [feat_importance, if_neg (by decide), if_neg (by decide), if_pos rfl]
    simp only [cv_score_ok env cv X cont.size (some cont.w) scoring
      (some (cv.purged_k_fold n_splits cont.t1 pct_embargo X)) n_splits cont.t1 pct_embargo true hc]
    rw [if_neg (show ¬(kwCallOk sfiParamNames sfiRequiredParams sfiDispatchKwargs = true)
      from by decide)]
    rfl

/-- Witness for C8 at a concrete environment with accuracy scoring. -/
theorem feat_importance_fit_first_witness :
    (("accuracy" : String) = "neg_log_loss" ∨ ("accuracy" : String) = "accuracy")
    ∧ (feat_importance sqId envT cvT XT contT none 5 2 1 24 0 "accuracy" "MDI" 0
      = (.ok (.mdiR (feat_imp_MDI sqId (envT.estimators (envT.fit XT contT.size (some contT.w))) XT.cols),
              envT.oob_score (envT.fit XT contT.size (some contT.w)),
              listMean (cvFoldScores envT cvT XT contT.size (some contT.w) "accuracy" none 2 contT.t1 0)),
         (XT, contT.size, some contT.w)
           :: (cvFolds cvT none 2 contT.t1 0 XT).map
                (fun fold => (XT.iloc fold.1, ilocL contT.size fold.1, wIloc (some contT.w) fold.1)))
    ∧ (∃ imp oos,
        (feat_imp_MDA sqId envT cvT XT contT.size 2 contT.t1 (some contT.w) 0 "accuracy").1
          = .ok (imp, oos)
        ∧ feat_importance sqId envT cvT XT contT none 5 2 1 24 0 "accuracy" "MDA" 0
            = (.ok (.cvR imp, envT.oob_score (envT.fit XT contT.size (some contT.w)), oos),
               (XT, contT.size, some contT.w)
                 :: (feat_imp_MDA sqId envT cvT XT contT.size 2 contT.t1 (some contT.w) 0 "accuracy").2))
    ∧ (feat_importance sqId envT cvT XT contT none 5 2 1 24 0 "accuracy" "SFI" 0).1
        = .error .typeError
    ∧ (feat_importance sqId envT cvT XT contT none 5 2 1 24 0 "accuracy" "SFI" 0).2.head?
        = some (XT, contT.size, some contT.w)) :=
  ⟨Or.inr rfl,
   feat_importance_fit_first Unit sqId envT cvT XT contT none 5 2 1 24 0 "accuracy" 0
     (Or.inr rfl)⟩

/-- Counterexample for C8: a concrete call with method SFI and valid scoring
returns an error instead of the claimed triple, because the dispatched keyword
call does not bind against `feat_imp_SFI`. -/
theorem feat_importance_sfi_counterexample :
    (feat_importance sqId envT cvT XT contT none 7 3 1 2 0 "accuracy" "SFI" 0).1
      = .error .typeError := by
  rfl

end FinanceML
